import Mathlib

/-!
Verification of the CC2652P/CC2530/CC2538 UART module checker
(`check_cc2652p.py`).  The decoder and orchestrator are embedded as pure
Lean functions over `List Nat` byte sequences; printed output is modelled
as a list of structured events carrying the data each print surfaces.
-/

namespace CheckCC2652P

/-- Chip variants recognised by the decoder, one per known 4-byte magic. -/
inductive ChipVariant
  | CC2652
  | CC2530
  | CC2538
  deriving DecidableEq, Repr

/-- Known response magic for CC2652: `FE 0A 61 02`. -/
def magicA : List Nat := [0xFE, 0x0A, 0x61, 0x02]

/-- Known response magic for CC2530: `FE 0E 61 02`. -/
def magicB : List Nat := [0xFE, 0x0E, 0x61, 0x02]

/-- Known response magic for CC2538: `FE 10 61 02`. -/
def magicC : List Nat := [0xFE, 0x10, 0x61, 0x02]

/-- Fields extracted by `process_version` at fixed offsets of the frame. -/
structure VersionFields where
  transport_version : Nat
  product_id : Nat
  major_release : Nat
  minor_release : Nat
  maintenance_release : Nat
  revision : List Nat
  deriving DecidableEq, Repr

/-- Python slice `r[a:b]` on a byte sequence (clamping, never raising). -/
def pySlice (r : List Nat) (a b : Nat) : List Nat :=
  (r.drop a).take (b - a)

/-- Chip classification of `process_version_response`: the first matching
branch of the `startswith` chain, in source order, or `none`. -/
def classifyChip (r : List Nat) : Option ChipVariant :=
  if magicA.isPrefixOf r then some ChipVariant.CC2652
  else if magicB.isPrefixOf r then some ChipVariant.CC2530
  else if magicC.isPrefixOf r then some ChipVariant.CC2538
  else none

/-- Field extraction of `process_version`: indexing `response[4]` …
`response[8]` raises `IndexError` (modelled as `none`) when out of range;
the slice `response[9:14]` clamps and never raises. -/
def parseVersion (r : List Nat) : Option VersionFields :=
  match r[4]?, r[5]?, r[6]?, r[7]?, r[8]? with
  | some tv, some pid, some maj, some mi, some mnt =>
      some ⟨tv, pid, maj, mi, mnt, pySlice r 9 14⟩
  | _, _, _, _, _ => none

/-- Printed lines of the decoder, as structured events carrying the data
each `print` call surfaces. -/
inductive Out
  | dbgRaw (r : List Nat)
  | noResponseMsg
  | dbgParsing (r : List Nat)
  | versionInfo (chip : ChipVariant) (f : VersionFields)
  | parseError
  | unknownChip (r : List Nat)
  | asyncData (t : List Nat)
  deriving DecidableEq, Repr

/-- Decode outcome implicit in which branch of the decoder printed. -/
inductive DecodeOutcome
  | noResponse
  | unrecognized (raw : List Nat)
  | decoded (chip : ChipVariant) (f : VersionFields)
  | decodeError (chip : ChipVariant)
  deriving DecidableEq, Repr

/-- Full result of one `process_version_response` call: the printed
events, the classification outcome, and the trailing-data report. -/
structure PVResult where
  output : List Out
  result : DecodeOutcome
  trailingData : Option (List Nat)
  deriving DecidableEq, Repr

/-- The body of `process_version` for a matched chip: debug line, then
either the version-info block or the caught-exception error line. -/
def process_version (debug : Bool) (r : List Nat) (chip : ChipVariant) :
    List Out × DecodeOutcome :=
  ((if debug then [Out.dbgParsing r] else []) ++
    match parseVersion r with
    | some f => [Out.versionInfo chip f]
    | none => [Out.parseError],
   match parseVersion r with
   | some f => DecodeOutcome.decoded chip f
   | none => DecodeOutcome.decodeError chip)

/-- Embedding of `process_version_response`: debug dump, early return on
empty input, `startswith` chain, then the trailing-data check. -/
def process_version_response (debug : Bool) (r : List Nat) : PVResult :=
  let dbg := if debug then [Out.dbgRaw r] else []
  if r = [] then
    { output := dbg ++ [Out.noResponseMsg]
      result := DecodeOutcome.noResponse
      trailingData := none }
  else
    let branch :=
      match classifyChip r with
      | some chip => process_version debug r chip
      | none => ([Out.unknownChip r], DecodeOutcome.unrecognized r)
    let tr := if 14 < r.length then some (r.drop 14) else none
    { output := dbg ++ branch.1 ++
        (match tr with
         | some t => [Out.asyncData t]
         | none => [])
      result := branch.2
      trailingData := tr }

/-- Decode outcome as a function of the raw bytes alone. -/
def decodeResult (r : List Nat) : DecodeOutcome :=
  (process_version_response false r).result

/-! Orchestrator model.  `check_port_availability` shells out to `fuser`;
we model the inspection outcome as `Except Unit (List Nat)`: the list of
PIDs printed by `fuser` (empty means the port is free), or `Except.error`
when the inspection itself raised.  `send_command` opens the serial device
(which may raise `SerialException`, modelled by `openOk = false`), writes
the command once, sleeps, and reads the available bytes. -/

/-- Transport-level actions performed during one run, in order. -/
inductive TransportEvent
  | opened
  | wrote (cmd : List Nat)
  | readBytes (r : List Nat)
  deriving DecidableEq, Repr

/-- Payload of a write event, `none` for the other event kinds. -/
def TransportEvent.writePayload : TransportEvent → Option (List Nat)
  | TransportEvent.wrote cmd => some cmd
  | _ => none

/-- Embedding of `check_port_availability`: `true` exactly when `fuser`
ran and printed nothing; a nonempty PID list or an exception yields
`false`. -/
def check_port_availability (insp : Except Unit (List Nat)) : Bool :=
  match insp with
  | Except.ok [] => true
  | Except.ok (_ :: _) => false
  | Except.error _ => false

/-- Embedding of `send_command`: on successful open it locks, clears the
input buffer, writes the command once, sleeps, and reads `resp`; an empty
read returns `None` (after printing a diagnostic), as does a raised
exception on open. -/
def send_command (openOk : Bool) (resp : List Nat) (cmd : List Nat) :
    List TransportEvent × Option (List Nat) :=
  if openOk then
    ([TransportEvent.opened, TransportEvent.wrote cmd,
      TransportEvent.readBytes resp],
     if resp = [] then none else some resp)
  else ([], none)

/-- The fixed 5-byte SYS version request `FE 00 21 02 23`. -/
def version_command : List Nat := [0xFE, 0x00, 0x21, 0x02, 0x23]

/-- Result of one `check` run: the transport events it performed, the
process exit code (`sys.exit(1)` or implicit `0`), and the decoder result
when a response was processed. -/
structure CheckRun where
  events : List TransportEvent
  exitCode : Nat
  decoded : Option PVResult
  deriving DecidableEq, Repr

/-- Embedding of `check`: exit 1 if the availability check fails, else
send the fixed version command and feed any nonempty response to the
decoder; every such run returns normally (exit code 0). -/
def check (debug : Bool) (insp : Except Unit (List Nat)) (openOk : Bool)
    (resp : List Nat) : CheckRun :=
  if check_port_availability insp then
    let sc := send_command openOk resp version_command
    { events := sc.1
      exitCode := 0
      decoded :=
        match sc.2 with
        | some r => some (process_version_response debug r)
        | none => none }
  else { events := [], exitCode := 1, decoded := none }

/-! Sequential-decoding model for the purity claim.  The Python decoder is
a method on a checker object; each call reads the object's fields and
assigns none, so a step maps the checker state to itself alongside the
call's result. -/

/-- Relevant immutable configuration of `ZigbeeModuleChecker`. -/
structure Checker where
  baudrate : Nat
  timeout : Nat
  debug : Bool
  deriving DecidableEq, Repr

/-- One decoder call on the checker object: reads `debug`, mutates no
field. -/
def decodeStep (c : Checker) (r : List Nat) : Checker × PVResult :=
  (c, process_version_response c.debug r)

/-- Decoding a sequence of responses on the same checker object,
threading the object state through the calls. -/
def decodeMany (c : Checker) : List (List Nat) → Checker × List PVResult
  | [] => (c, [])
  | r :: rs =>
      let s := decodeStep c r
      let t := decodeMany s.1 rs
      (t.1, s.2 :: t.2)

/-! Helper lemmas about the decoder. -/

/-- A frame starting with the CC2652 magic classifies as CC2652. -/
lemma classifyChip_A (t : List Nat) :
    classifyChip (magicA ++ t) = some ChipVariant.CC2652 := by
  simp [classifyChip, magicA, magicB, magicC, List.isPrefixOf]

/-- A frame starting with the CC2530 magic classifies as CC2530. -/
lemma classifyChip_B (t : List Nat) :
    classifyChip (magicB ++ t) = some ChipVariant.CC2530 := by
  simp [classifyChip, magicA, magicB, magicC, List.isPrefixOf]

/-- A frame starting with the CC2538 magic classifies as CC2538. -/
lemma classifyChip_C (t : List Nat) :
    classifyChip (magicC ++ t) = some ChipVariant.CC2538 := by
  simp [classifyChip, magicA, magicB, magicC, List.isPrefixOf]

/-- Field extraction succeeds exactly on frames of at least 9 bytes, and
each field is the byte at its fixed offset. -/
lemma parseVersion_long (r : List Nat) (h : 9 ≤ r.length) :
    parseVersion r =
      some ⟨r.getD 4 0, r.getD 5 0, r.getD 6 0, r.getD 7 0, r.getD 8 0,
            pySlice r 9 14⟩ := by
  have h4 : r[4]? = some (r.getD 4 0) := by
    simp [List.getD_eq_getElem?_getD,
      List.getElem?_eq_getElem (show 4 < r.length by omega)]
  have h5 : r[5]? = some (r.getD 5 0) := by
    simp [List.getD_eq_getElem?_getD,
      List.getElem?_eq_getElem (show 5 < r.length by omega)]
  have h6 : r[6]? = some (r.getD 6 0) := by
    simp [List.getD_eq_getElem?_getD,
      List.getElem?_eq_getElem (show 6 < r.length by omega)]
  have h7 : r[7]? = some (r.getD 7 0) := by
    simp [List.getD_eq_getElem?_getD,
      List.getElem?_eq_getElem (show 7 < r.length by omega)]
  have h8 : r[8]? = some (r.getD 8 0) := by
    simp [List.getD_eq_getElem?_getD,
      List.getElem?_eq_getElem (show 8 < r.length by omega)]
  unfold parseVersion
  rw [h4, h5, h6, h7, h8]

/-- Field extraction raises (returns `none`) on frames shorter than 9
bytes: one of the indexed reads `response[4]` … `response[8]` is out of
range. -/
lemma parseVersion_short (r : List Nat) (h : r.length < 9) :
    parseVersion r = none := by
  have h8 : r[8]? = none := by
    rw [List.getElem?_eq_none_iff]; omega
  unfold parseVersion
  rw [h8]
  cases r[4]? <;> cases r[5]? <;> cases r[6]? <;> cases r[7]? <;> rfl

/-- Decoder result on a nonempty frame whose magic matched. -/
lemma pvr_result_matched (d : Bool) (r : List Nat) (chip : ChipVariant)
    (hne : r ≠ []) (hc : classifyChip r = some chip) :
    (process_version_response d r).result =
      (match parseVersion r with
       | some f => DecodeOutcome.decoded chip f
       | none => DecodeOutcome.decodeError chip) := by
  unfold process_version_response
  simp [hne, hc, process_version]

/-- The classifier only answers `some` on nonempty input. -/
lemma classifyChip_ne_nil (r : List Nat) (chip : ChipVariant)
    (hc : classifyChip r = some chip) : r ≠ [] := by
  intro e; subst e
  simp [classifyChip, magicA, magicB, magicC, List.isPrefixOf] at hc

/-- The debug flag does not enter the result or trailing-data fields. -/
lemma pvr_debug_irrelevant (d : Bool) (r : List Nat) :
    (process_version_response d r).result =
        (process_version_response false r).result ∧
      (process_version_response d r).trailingData =
        (process_version_response false r).trailingData := by
  unfold process_version_response
  by_cases hne : r = []
  · simp [hne]
  · simp [hne]
    cases classifyChip r <;> simp [process_version]

/-- Result on a matched frame long enough for all indexed reads. -/
lemma decodeResult_matched_long (r : List Nat) (chip : ChipVariant)
    (hc : classifyChip r = some chip) (hlen : 9 ≤ r.length) :
    decodeResult r = DecodeOutcome.decoded chip
      ⟨r.getD 4 0, r.getD 5 0, r.getD 6 0, r.getD 7 0, r.getD 8 0,
       pySlice r 9 14⟩ := by
  have hne := classifyChip_ne_nil r chip hc
  unfold decodeResult
  rw [pvr_result_matched false r chip hne hc, parseVersion_long r hlen]

/-! Claims. -/

/-- C1: for each of the three known 4-byte magics, decoding a response of
at least 14 bytes starting with that magic yields the corresponding chip
variant (CC2652, CC2530, CC2538) with transport version, product ID,
major, minor and maintenance release equal to the bytes at offsets 4–8
and revision equal to bytes 9..14. -/
theorem claim_C1 (r : List Nat) (hlen : 14 ≤ r.length) :
    (magicA.isPrefixOf r = true →
      decodeResult r = DecodeOutcome.decoded ChipVariant.CC2652
        ⟨r.getD 4 0, r.getD 5 0, r.getD 6 0, r.getD 7 0, r.getD 8 0,
         pySlice r 9 14⟩) ∧
    (magicB.isPrefixOf r = true →
      decodeResult r = DecodeOutcome.decoded ChipVariant.CC2530
        ⟨r.getD 4 0, r.getD 5 0, r.getD 6 0, r.getD 7 0, r.getD 8 0,
         pySlice r 9 14⟩) ∧
    (magicC.isPrefixOf r = true →
      decodeResult r = DecodeOutcome.decoded ChipVariant.CC2538
        ⟨r.getD 4 0, r.getD 5 0, r.getD 6 0, r.getD 7 0, r.getD 8 0,
         pySlice r 9 14⟩) := by
  refine ⟨fun h => ?_, fun h => ?_, fun h => ?_⟩
  · obtain ⟨t, rfl⟩ := List.isPrefixOf_iff_prefix.mp h
    exact decodeResult_matched_long _ _ (classifyChip_A t) (by omega)
  · obtain ⟨t, rfl⟩ := List.isPrefixOf_iff_prefix.mp h
    exact decodeResult_matched_long _ _ (classifyChip_B t) (by omega)
  · obtain ⟨t, rfl⟩ := List.isPrefixOf_iff_prefix.mp h
    exact decodeResult_matched_long _ _ (classifyChip_C t) (by omega)

/-- C1 witness: the 14-byte scenario-1 frame decodes to CC2652 with the
expected field values. -/
theorem claim_C1_witness :
    14 ≤ ([0xFE, 0x0A, 0x61, 0x02, 2, 5, 2, 1, 3,
           0xAA, 0xBB, 0xCC, 0xDD, 0xEE] : List Nat).length ∧
    decodeResult [0xFE, 0x0A, 0x61, 0x02, 2, 5, 2, 1, 3,
                  0xAA, 0xBB, 0xCC, 0xDD, 0xEE] =
      DecodeOutcome.decoded ChipVariant.CC2652
        ⟨2, 5, 2, 1, 3, [0xAA, 0xBB, 0xCC, 0xDD, 0xEE]⟩ :=
  ⟨by decide,
   (claim_C1 [0xFE, 0x0A, 0x61, 0x02, 2, 5, 2, 1, 3,
              0xAA, 0xBB, 0xCC, 0xDD, 0xEE] (by decide)).1 (by decide)⟩

/-- C2: any response longer than 14 bytes surfaces trailing data equal to
the bytes from offset 14 onward, both in the trailing-data report and as
a printed asynchronous-data line, independent of the magic-match
outcome. -/
theorem claim_C2 (d : Bool) (r : List Nat) (h : 14 < r.length) :
    (process_version_response d r).trailingData = some (r.drop 14) ∧
    Out.asyncData (r.drop 14) ∈ (process_version_response d r).output := by
  have hne : r ≠ [] := by intro e; subst e; simp at h
  unfold process_version_response
  simp [hne, h]

/-- C2 witness: a 16-byte unrecognized frame surfaces its 2 trailing
bytes. -/
theorem claim_C2_witness :
    (process_version_response false
        [0, 1, 2, 3, 4, 5, 6, 7, 8, 9, 10, 11, 12, 13, 0x11, 0x22]).trailingData =
      some [0x11, 0x22] ∧
    Out.asyncData [0x11, 0x22] ∈
      (process_version_response false
        [0, 1, 2, 3, 4, 5, 6, 7, 8, 9, 10, 11, 12, 13, 0x11, 0x22]).output := by
  have h := claim_C2 false
    [0, 1, 2, 3, 4, 5, 6, 7, 8, 9, 10, 11, 12, 13, 0x11, 0x22] (by decide)
  exact h

/-- C3 counterexample: a 13-byte frame with the CC2652 magic is decoded
(with a truncated revision), not rejected with a decode error, so the
decoder does not require the 14-byte minimum as claimed. -/
theorem claim_C3_counterexample :
    magicA.isPrefixOf
        [0xFE, 0x0A, 0x61, 0x02, 10, 11, 12, 13, 14, 15, 16, 17, 18] = true ∧
    ([0xFE, 0x0A, 0x61, 0x02, 10, 11, 12, 13, 14, 15, 16, 17, 18] :
        List Nat).length < 14 ∧
    decodeResult [0xFE, 0x0A, 0x61, 0x02, 10, 11, 12, 13, 14, 15, 16, 17, 18] =
      DecodeOutcome.decoded ChipVariant.CC2652
        ⟨10, 11, 12, 13, 14, [15, 16, 17, 18]⟩ ∧
    decodeResult [0xFE, 0x0A, 0x61, 0x02, 10, 11, 12, 13, 14, 15, 16, 17, 18] ≠
      DecodeOutcome.decodeError ChipVariant.CC2652 := by decide

/-- C3 amended: on a matched magic the decoder signals a distinct decode
error (the caught out-of-range indexed read) exactly when the response
has fewer than 9 bytes; a matched response of 9 or more bytes is decoded,
with the revision truncated to the available bytes below 14; decoding
never raises an unhandled exception. -/
theorem claim_C3 (r : List Nat) (chip : ChipVariant)
    (hc : classifyChip r = some chip) :
    (r.length < 9 → decodeResult r = DecodeOutcome.decodeError chip) ∧
    (9 ≤ r.length → decodeResult r = DecodeOutcome.decoded chip
      ⟨r.getD 4 0, r.getD 5 0, r.getD 6 0, r.getD 7 0, r.getD 8 0,
       pySlice r 9 14⟩) := by
  have hne := classifyChip_ne_nil r chip hc
  refine ⟨fun h => ?_, fun h => decodeResult_matched_long r chip hc h⟩
  unfold decodeResult
  rw [pvr_result_matched false r chip hne hc, parseVersion_short r h]

/-- C3 witness: a 5-byte matched frame yields the decode error, a 9-byte
matched frame decodes with an empty revision. -/
theorem claim_C3_witness :
    decodeResult [0xFE, 0x0A, 0x61, 0x02, 7] =
      DecodeOutcome.decodeError ChipVariant.CC2652 ∧
    decodeResult [0xFE, 0x0E, 0x61, 0x02, 1, 2, 3, 4, 5] =
      DecodeOutcome.decoded ChipVariant.CC2530 ⟨1, 2, 3, 4, 5, []⟩ :=
  ⟨(claim_C3 [0xFE, 0x0A, 0x61, 0x02, 7] ChipVariant.CC2652
      (by decide)).1 (by decide),
   (claim_C3 [0xFE, 0x0E, 0x61, 0x02, 1, 2, 3, 4, 5] ChipVariant.CC2530
      (by decide)).2 (by decide)⟩

/-- C4: a nonempty response matching none of the known magics always
yields the unrecognized-chip outcome carrying the full raw bytes, also in
the printed diagnostic. -/
theorem claim_C4 (d : Bool) (r : List Nat) (hne : r ≠ [])
    (hc : classifyChip r = none) :
    (process_version_response d r).result = DecodeOutcome.unrecognized r ∧
    Out.unknownChip r ∈ (process_version_response d r).output := by
  unfold process_version_response
  simp [hne, hc]

/-- C4 witness: the 4-byte frame `00 01 02 03` yields unrecognized-chip
carrying those 4 bytes. -/
theorem claim_C4_witness :
    (process_version_response false [0, 1, 2, 3]).result =
      DecodeOutcome.unrecognized [0, 1, 2, 3] ∧
    Out.unknownChip [0, 1, 2, 3] ∈
      (process_version_response false [0, 1, 2, 3]).output :=
  claim_C4 false [0, 1, 2, 3] (by decide) (by decide)

/-- C5: the empty response always yields the no-response outcome, with no
trailing-data report and no output beyond the optional debug dump and the
no-response message: the magic comparison, field extraction and
trailing-data check are never reached. -/
theorem claim_C5 (d : Bool) :
    process_version_response d [] =
      { output := (if d then [Out.dbgRaw []] else []) ++ [Out.noResponseMsg]
        result := DecodeOutcome.noResponse
        trailingData := none } := by
  cases d <;> rfl

/-- C6: the run exits with code 1 exactly when the port-availability
check fails (occupied port or failed inspection), and with code 0 exactly
when the inspection ran and found no holder — regardless of the transport
outcome or response bytes. -/
theorem claim_C6 (d : Bool) (insp : Except Unit (List Nat)) (openOk : Bool)
    (resp : List Nat) :
    ((check d insp openOk resp).exitCode = 1 ↔
      check_port_availability insp = false) ∧
    ((check d insp openOk resp).exitCode = 0 ↔ insp = Except.ok []) := by
  rcases insp with e | pids
  · simp [check, check_port_availability]
  · cases pids <;> simp [check, check_port_availability]

/-- C7: when the port-availability check fails, the run performs no
transport action at all: no open, no write, no read. -/
theorem claim_C7 (d : Bool) (insp : Except Unit (List Nat)) (openOk : Bool)
    (resp : List Nat) (h : check_port_availability insp = false) :
    (check d insp openOk resp).events = [] := by
  simp [check, h]

/-- C7 witness: with a failing inspection the event trace is empty. -/
theorem claim_C7_witness :
    check_port_availability (Except.error ()) = false ∧
    (check false (Except.error ()) true [1, 2, 3]).events = [] :=
  ⟨by decide, claim_C7 false (Except.error ()) true [1, 2, 3] (by decide)⟩

/-- C8: the bytes written over the transport in any run form exactly the
single fixed command `FE 00 21 02 23` when the exchange is reached, and
nothing otherwise: never a different command, never more than one
write. -/
theorem claim_C8 (d : Bool) (insp : Except Unit (List Nat)) (openOk : Bool)
    (resp : List Nat) :
    ((check d insp openOk resp).events.filterMap
        TransportEvent.writePayload) =
      if check_port_availability insp && openOk then [version_command]
      else [] := by
  cases hp : check_port_availability insp <;> cases ho : openOk <;>
    simp [check, send_command, hp, ho, TransportEvent.writePayload]

/-- C9: the decoder has no mutable state: running any sequence of decode
calls on a checker object leaves the object unchanged and returns, for
each input, exactly the decode of that input alone — so decoding the same
bytes any number of times yields identical results. -/
theorem claim_C9 (c : Checker) (rs : List (List Nat)) :
    decodeMany c rs =
      (c, rs.map (fun r => process_version_response c.debug r)) := by
  induction rs with
  | nil => rfl
  | cons r rs ih => simp [decodeMany, decodeStep, ih]

/-- Normal form of the decoder's printed output. -/
lemma pvr_output (d : Bool) (r : List Nat) :
    (process_version_response d r).output =
      (if d then [Out.dbgRaw r] else []) ++
      (if r = [] then [Out.noResponseMsg]
       else
        (match classifyChip r with
         | some chip =>
            (if d then [Out.dbgParsing r] else []) ++
              (match parseVersion r with
               | some f => [Out.versionInfo chip f]
               | none => [Out.parseError])
         | none => [Out.unknownChip r]) ++
        (if 14 < r.length then [Out.asyncData (r.drop 14)] else [])) := by
  unfold process_version_response
  by_cases hne : r = []
  · simp [hne]
  · simp only [if_neg hne]
    cases hc : classifyChip r <;>
      by_cases hl : 14 < r.length <;>
        simp [process_version, hc, hl]

/-- C10: the debug flag never changes the decode outcome or the
trailing-data determination, and the non-debug output lines form a
sublist of the debug output lines: debug only adds dump lines. -/
theorem claim_C10 (r : List Nat) :
    (process_version_response true r).result =
        (process_version_response false r).result ∧
    (process_version_response true r).trailingData =
        (process_version_response false r).trailingData ∧
    List.Sublist (process_version_response false r).output
      (process_version_response true r).output := by
  refine ⟨(pvr_debug_irrelevant true r).1, (pvr_debug_irrelevant true r).2, ?_⟩
  rw [pvr_output true r, pvr_output false r]
  refine List.Sublist.append (List.nil_sublist _) ?_
  by_cases hne : r = []
  · rw [if_pos hne, if_pos hne]
  · rw [if_neg hne, if_neg hne]
    refine List.Sublist.append ?_ (List.Sublist.refl _)
    cases hc : classifyChip r
    · exact List.Sublist.refl _
    · exact List.Sublist.append (List.nil_sublist _) (List.Sublist.refl _)

end CheckCC2652P
